import Mathlib

/-!
Verification of the OAuth proxy backend (src/backend/main.py).

The backend is a FastAPI service with four routes:
  * GET /                       -> read_root
  * GET /login                  -> login_google
  * GET /auth/google/callback   -> auth_google_callback
  * GET /get-steps              -> get_steps
and one process-wide mutable field `user_access_token`.

We embed the handlers as pure functions.  Network I/O is modelled by
passing the upstream HTTP response in as an argument and returning the
request the handler issued (or `none` when no request is made).  The
process-wide token is threaded explicitly: handlers take the current
value and return the new one.  Log output (Python `print`) is returned
as a list of strings.
-/

/-- JSON values, as produced by `response.json()` in the Python code.
Numbers are modelled as integers: every number the code manipulates
(`intVal`, millisecond timestamps) is an integer. -/
inductive Json where
  | null
  | bool (b : Bool)
  | num (n : Int)
  | str (s : String)
  | arr (xs : List Json)
  | obj (fields : List (String × Json))

/-- Python truthiness of a JSON value (`if x:`): None, False, 0, "",
empty list and empty dict are falsy, everything else truthy. -/
def truthy : Json → Bool
  | .null => false
  | .bool b => b
  | .num n => decide (n ≠ 0)
  | .str s => decide (s ≠ "")
  | .arr xs => !xs.isEmpty
  | .obj fs => !fs.isEmpty

/-- Truthiness of an optional value: Python `None` is falsy. -/
def truthyOpt : Option Json → Bool
  | none => false
  | some j => truthy j

/-- Truthiness of an optional string (query parameter, token):
`None` and the empty string are falsy. -/
def strTruthy : Option String → Bool
  | none => false
  | some s => decide (s ≠ "")

/-- Python `d.get(k)`: `none` when the key is missing; raises
AttributeError when the receiver is not a dict. -/
def pyGet : Json → String → Except String (Option Json)
  | .obj fs, k => .ok (fs.lookup k)
  | _, _ => .error "AttributeError"

/-- Python `d.get(k, default)`: the value under `k`, or `default` when
the key is missing; raises AttributeError when the receiver is not a
dict. -/
def pyGetD (j : Json) (k : String) (d : Json) : Except String Json :=
  match j with
  | .obj fs => .ok ((fs.lookup k).getD d)
  | _ => .error "AttributeError"

/-- Python `d[k]` with a string key: KeyError when missing, TypeError
when the receiver is not a dict. -/
def pySubscr : Json → String → Except String Json
  | .obj fs, k =>
    match fs.lookup k with
    | some v => .ok v
    | none => .error "KeyError"
  | _, _ => .error "TypeError"

/-- Python `x[0]`: first element of a list (IndexError when empty),
first character of a string, TypeError otherwise. -/
def pyIndex0 : Json → Except String Json
  | .arr [] => .error "IndexError"
  | .arr (x :: _) => .ok x
  | .str s =>
    match s.data with
    | [] => .error "IndexError"
    | c :: _ => .ok (.str (String.singleton c))
  | _ => .error "TypeError"

mutual

/-- Python `repr()` of a JSON value (list/dict elements are rendered
with `repr`). -/
def pyRepr : Json → String
  | .null => "None"
  | .bool b => cond b "True" "False"
  | .num n => toString n
  | .str s => "\x27" ++ s ++ "\x27"
  | .arr xs => "[" ++ pyReprElems xs ++ "]"
  | .obj fs => "\x7b" ++ pyReprFields fs ++ "\x7d"

/-- Comma-separated `repr`s of list elements. -/
def pyReprElems : List Json → String
  | [] => ""
  | [x] => pyRepr x
  | x :: y :: xs => pyRepr x ++ ", " ++ pyReprElems (y :: xs)

/-- Comma-separated `key: value` pairs of a dict `repr`. -/
def pyReprFields : List (String × Json) → String
  | [] => ""
  | [(k, v)] => "\x27" ++ k ++ "\x27: " ++ pyRepr v
  | (k, v) :: y :: fs => "\x27" ++ k ++ "\x27: " ++ pyRepr v ++ ", " ++ pyReprFields (y :: fs)

end

/-- Python `str()` of a JSON value, as used by f-string interpolation:
a string interpolates as itself, containers via `repr`. -/
def pyStrOf : Json → String
  | .str s => s
  | .null => "None"
  | .bool b => cond b "True" "False"
  | .num n => toString n
  | .arr xs => "[" ++ pyReprElems xs ++ "]"
  | .obj fs => "\x7b" ++ pyReprFields fs ++ "\x7d"

/-- An upstream HTTP response: status code, parsed JSON body
(`response.json()`) and raw body text (`response.text`). -/
structure HttpResponse where
  status : Nat
  body : Json
  text : String

/-- httpx `raise_for_status` raises unless the status is 2xx. -/
def is_success (status : Nat) : Bool := decide (200 ≤ status) && decide (status < 300)

/-- The value a route handler produces. `json` is a plain dict return,
`jsonStatus` the `return {...}, code` tuple form, `redirect` a
RedirectResponse, `raise` an uncaught Python exception. -/
inductive PyResult where
  | json (j : Json)
  | jsonStatus (j : Json) (code : Nat)
  | redirect (url : String)
  | raise (e : String)

-- --- Configuration constants from main.py ---

def REDIRECT_URI : String := "http://localhost:8000/auth/google/callback"

def FRONTEND_URL : String := "http://localhost:5173"

def token_url : String := "https://oauth2.googleapis.com/token"

def api_url : String := "https://www.googleapis.com/fitness/v1/users/me/dataset:aggregate"

def SCOPE : String := "https://www.googleapis.com/auth/fitness.activity.read"

-- --- GET / ---

/-- Handler `read_root`. -/
def read_root : PyResult := .json (.obj [("message", .str "Fitness API Backend is running.")])

-- --- GET /login ---

/-- The authorization-request URL built by `login_google` via f-string
interpolation (no URL-encoding is applied by the code). -/
def auth_url (client_id : String) : String :=
  "https://accounts.google.com/o/oauth2/v2/auth?" ++
  "scope=" ++ SCOPE ++ "&" ++
  "include_granted_scopes=true&" ++
  "response_type=code&" ++
  "redirect_uri=" ++ REDIRECT_URI ++ "&" ++
  "client_id=" ++ client_id

/-- Handler `login_google`: redirects to the consent screen. -/
def login_google (client_id : String) : PyResult := .redirect (auth_url client_id)

-- --- GET /auth/google/callback ---

/-- The form data POSTed to the token endpoint (`token_data` plus the
URL). -/
structure TokenRequest where
  url : String
  code : String
  client_id : String
  client_secret : String
  redirect_uri : String
  grant_type : String

/-- Handler `auth_google_callback`.  Inputs: current value of the
global `user_access_token`, the configured client id/secret, the `code`
query parameter (`none` when absent), and the Authorization Server
response to the token-exchange POST.  Output: new value of
`user_access_token`, the token-exchange request issued (`none` when no
POST was made), the log lines printed, and the HTTP result. -/
def auth_google_callback (user_access_token : Option Json)
    (client_id client_secret : String)
    (codeParam : Option String) (resp : HttpResponse) :
    Option Json × Option TokenRequest × List String × PyResult :=
  if strTruthy codeParam then
    let code := codeParam.getD ""
    let req : TokenRequest :=
      ⟨token_url, code, client_id, client_secret, REDIRECT_URI, "authorization_code"⟩
    if is_success resp.status then
      match pyGet resp.body "access_token" with
      | .ok tok => (tok, some req, [], .redirect (FRONTEND_URL ++ "/dashboard"))
      | .error e => (user_access_token, some req, [], .raise e)
    else
      (user_access_token, some req,
        ["Error exchanging code for token: " ++ resp.text],
        .redirect (FRONTEND_URL ++ "/login-failed"))
  else
    (user_access_token, none, [], .redirect (FRONTEND_URL ++ "/login-failed"))

-- --- GET /get-steps ---

/-- The fixed aggregate query body (`request_body` in main.py), given
the two computed millisecond timestamps. -/
def request_body (startTimeMillis endTimeMillis : Int) : Json :=
  .obj [("aggregateBy", .arr [.obj
          [("dataTypeName", .str "com.google.step_count.delta"),
           ("dataSourceId", .str "derived:com.google.step_count.delta:com.google.android.gms:estimated_steps")]]),
        ("bucketByTime", .obj [("durationMillis", .num 86400000)]),
        ("startTimeMillis", .num startTimeMillis),
        ("endTimeMillis", .num endTimeMillis)]

/-- The POST `get_steps` sends to the Fitness Data API: URL, the
`Authorization` header value, and the JSON body. -/
structure FitRequest where
  url : String
  authorization : String
  body : Json

/-- The request `get_steps` issues for a (truthy) stored token. -/
def fitReq (tok : Json) (startTimeMillis endTimeMillis : Int) : FitRequest :=
  ⟨api_url, "Bearer " ++ pyStrOf tok, request_body startTimeMillis endTimeMillis⟩

/-- The nested-response traversal in `get_steps` (lines 126-136):
`steps = 0`, then descend `bucket[0].dataset[0].point[0].value[0]`
guarded by `if x.get(key):` at each level, finally
`value.get("intVal", 0)`.  Errors are uncaught Python exceptions. -/
def parseSteps (data : Json) : Except String Json := do
  if truthyOpt (← pyGet data "bucket") then
    let bucket ← pyIndex0 (← pySubscr data "bucket")
    if truthyOpt (← pyGet bucket "dataset") then
      let dataset ← pyIndex0 (← pySubscr bucket "dataset")
      if truthyOpt (← pyGet dataset "point") then
        let point ← pyIndex0 (← pySubscr dataset "point")
        if truthyOpt (← pyGet point "value") then
          let value ← pyIndex0 (← pySubscr point "value")
          pyGetD value "intVal" (.num 0)
        else pure (.num 0)
      else pure (.num 0)
    else pure (.num 0)
  else pure (.num 0)

/-- Handler `get_steps`.  Inputs: current `user_access_token`, the two
millisecond timestamps computed from the clock, and the Fitness Data
API response.  Output: the request issued (`none` when unauthenticated,
hence no upstream call), the log lines printed, and the HTTP result. -/
def get_steps (user_access_token : Option Json)
    (startTimeMillis endTimeMillis : Int) (resp : HttpResponse) :
    Option FitRequest × List String × PyResult :=
  if truthyOpt user_access_token then
    let req := fitReq (user_access_token.getD .null) startTimeMillis endTimeMillis
    if is_success resp.status then
      match parseSteps resp.body with
      | .ok steps => (some req, [], .json (.obj [("steps", steps)]))
      | .error e => (some req, [], .raise e)
    else
      (some req, ["Error fetching steps: " ++ resp.text],
        .jsonStatus (.obj [("error", .str "Failed to fetch steps from Google Fit.")]) 500)
  else
    (none, [], .jsonStatus (.obj [("error", .str "Not authenticated")]) 401)

-- --- URL-encoding specification (for the /login property) ---

/-- Characters that may appear verbatim in a URL query component
per RFC 3986 (`query = *( pchar / "/" / "?" )`), excluding the
delimiters `&` and `=` that separate parameters and values. -/
def queryAllowedChar (c : Char) : Bool :=
  c.isAlphanum ||
    (['-', '.', '_', '~', ':', '/', '?', '@', '!', '$', '(', ')', '*', '+', ',', ';'].contains c)

/-- One hex digit (uppercase). -/
def hexDigit (n : Nat) : Char := if n < 10 then Char.ofNat (48 + n) else Char.ofNat (55 + n)

/-- Percent-encoding of one character: allowed characters stand for
themselves, any other character becomes `%XX` per UTF-8 byte. -/
def encodeChar (c : Char) : List Char :=
  if queryAllowedChar c then [c]
  else ((String.singleton c).toUTF8.toList.map
          (fun b => ['%', hexDigit (b.toNat / 16), hexDigit (b.toNat % 16)])).flatten

/-- Correct URL-encoding of a query-parameter value. -/
def urlEncodeQueryValue (s : String) : String := ⟨s.data.flatMap encodeChar⟩

/-- `sub` occurs as a contiguous substring of `s`. -/
def strContains (s sub : String) : Prop := ∃ pre post, s = pre ++ (sub ++ post)

theorem str_append_assoc (a b c : String) : (a ++ b) ++ c = a ++ (b ++ c) := by
  cases a; cases b; cases c
  show String.mk _ = String.mk _
  simp [String.append]

theorem str_append_right_empty (a : String) : a ++ "" = a := by
  cases a
  show String.mk _ = String.mk _
  simp [String.append]

theorem flatMap_encodeChar_allowed :
    ∀ l : List Char, (∀ c ∈ l, queryAllowedChar c = true) → l.flatMap encodeChar = l := by
  intro l h
  induction l with
  | nil => rfl
  | cons c cs ih =>
    have hc := h c (by simp)
    have hcs := ih (fun x hx => h x (by simp [hx]))
    simp only [List.flatMap_cons, encodeChar, hc, if_true, List.singleton_append, hcs]

theorem urlEncode_eq_self {s : String} (h : ∀ c ∈ s.data, queryAllowedChar c = true) :
    urlEncodeQueryValue s = s := by
  cases s with
  | mk l =>
    show String.mk _ = String.mk _
    rw [flatMap_encodeChar_allowed l h]

-- --- Helper lemmas shared by the claim proofs ---

/-- The fully populated aggregate response with a given `intVal`. -/
def fullFitResponse (n : Int) : Json :=
  .obj [("bucket", .arr [.obj
    [("dataset", .arr [.obj
      [("point", .arr [.obj
        [("value", .arr [.obj [("intVal", .num n)]])]])]])]])]

theorem parseSteps_full (n : Int) : parseSteps (fullFitResponse n) = Except.ok (.num n) := rfl

theorem parseSteps_no_bucket (fs : List (String × Json)) (h : fs.lookup "bucket" = none) :
    parseSteps (.obj fs) = Except.ok (.num 0) := by
  simp [parseSteps, pyGet, h, truthyOpt, Bind.bind, Except.bind, pure, Except.pure]

theorem parseSteps_no_dataset (fs bfs : List (String × Json)) (brest : List Json)
    (h1 : fs.lookup "bucket" = some (.arr (.obj bfs :: brest)))
    (h2 : bfs.lookup "dataset" = none) :
    parseSteps (.obj fs) = Except.ok (.num 0) := by
  simp [parseSteps, pyGet, pySubscr, pyIndex0, h1, h2, truthy, truthyOpt,
    Bind.bind, Except.bind, pure, Except.pure]

theorem parseSteps_no_point (fs bfs dfs : List (String × Json)) (brest drest : List Json)
    (h1 : fs.lookup "bucket" = some (.arr (.obj bfs :: brest)))
    (h2 : bfs.lookup "dataset" = some (.arr (.obj dfs :: drest)))
    (h3 : dfs.lookup "point" = none) :
    parseSteps (.obj fs) = Except.ok (.num 0) := by
  simp [parseSteps, pyGet, pySubscr, pyIndex0, h1, h2, h3, truthy, truthyOpt,
    Bind.bind, Except.bind, pure, Except.pure]

theorem parseSteps_no_value (fs bfs dfs pfs : List (String × Json))
    (brest drest prest : List Json)
    (h1 : fs.lookup "bucket" = some (.arr (.obj bfs :: brest)))
    (h2 : bfs.lookup "dataset" = some (.arr (.obj dfs :: drest)))
    (h3 : dfs.lookup "point" = some (.arr (.obj pfs :: prest)))
    (h4 : pfs.lookup "value" = none) :
    parseSteps (.obj fs) = Except.ok (.num 0) := by
  simp [parseSteps, pyGet, pySubscr, pyIndex0, h1, h2, h3, h4, truthy, truthyOpt,
    Bind.bind, Except.bind, pure, Except.pure]

theorem parseSteps_no_intVal (fs bfs dfs pfs vfs : List (String × Json))
    (brest drest prest vrest : List Json)
    (h1 : fs.lookup "bucket" = some (.arr (.obj bfs :: brest)))
    (h2 : bfs.lookup "dataset" = some (.arr (.obj dfs :: drest)))
    (h3 : dfs.lookup "point" = some (.arr (.obj pfs :: prest)))
    (h4 : pfs.lookup "value" = some (.arr (.obj vfs :: vrest)))
    (h5 : vfs.lookup "intVal" = none) :
    parseSteps (.obj fs) = Except.ok (.num 0) := by
  simp [parseSteps, pyGet, pyGetD, pySubscr, pyIndex0, h1, h2, h3, h4, h5, truthy, truthyOpt,
    Bind.bind, Except.bind, pure, Except.pure]

theorem get_steps_ok (tok : Json) (htok : truthy tok = true) (s e : Int)
    (st : Nat) (hst : is_success st = true) (body : Json) (txt : String) (n : Int)
    (hp : parseSteps body = Except.ok (.num n)) :
    get_steps (some tok) s e ⟨st, body, txt⟩
      = (some (fitReq tok s e), [], .json (.obj [("steps", .num n)])) := by
  simp [get_steps, truthyOpt, htok, hst, hp]

-- --- Claim theorems ---

/-- C1: for every Fitness Data API response in which an expected level
of the nested structure `bucket[0].dataset[0].point[0].value[0].intVal`
is absent (its key missing from the enclosing object, including the
`bucket` key missing entirely), `/get-steps` returns `{steps: 0}` with
no log output and no error. -/
theorem c1_missing_level_defaults_to_zero (tok : Json) (htok : truthy tok = true)
    (s e : Int) (st : Nat) (hst : is_success st = true) (txt : String) :
    (∀ fs : List (String × Json), fs.lookup "bucket" = none →
      get_steps (some tok) s e ⟨st, .obj fs, txt⟩
        = (some (fitReq tok s e), [], .json (.obj [("steps", .num 0)])))
  ∧ (∀ (fs bfs : List (String × Json)) (brest : List Json),
      fs.lookup "bucket" = some (.arr (.obj bfs :: brest)) →
      bfs.lookup "dataset" = none →
      get_steps (some tok) s e ⟨st, .obj fs, txt⟩
        = (some (fitReq tok s e), [], .json (.obj [("steps", .num 0)])))
  ∧ (∀ (fs bfs dfs : List (String × Json)) (brest drest : List Json),
      fs.lookup "bucket" = some (.arr (.obj bfs :: brest)) →
      bfs.lookup "dataset" = some (.arr (.obj dfs :: drest)) →
      dfs.lookup "point" = none →
      get_steps (some tok) s e ⟨st, .obj fs, txt⟩
        = (some (fitReq tok s e), [], .json (.obj [("steps", .num 0)])))
  ∧ (∀ (fs bfs dfs pfs : List (String × Json)) (brest drest prest : List Json),
      fs.lookup "bucket" = some (.arr (.obj bfs :: brest)) →
      bfs.lookup "dataset" = some (.arr (.obj dfs :: drest)) →
      dfs.lookup "point" = some (.arr (.obj pfs :: prest)) →
      pfs.lookup "value" = none →
      get_steps (some tok) s e ⟨st, .obj fs, txt⟩
        = (some (fitReq tok s e), [], .json (.obj [("steps", .num 0)])))
  ∧ (∀ (fs bfs dfs pfs vfs : List (String × Json))
        (brest drest prest vrest : List Json),
      fs.lookup "bucket" = some (.arr (.obj bfs :: brest)) →
      bfs.lookup "dataset" = some (.arr (.obj dfs :: drest)) →
      dfs.lookup "point" = some (.arr (.obj pfs :: prest)) →
      pfs.lookup "value" = some (.arr (.obj vfs :: vrest)) →
      vfs.lookup "intVal" = none →
      get_steps (some tok) s e ⟨st, .obj fs, txt⟩
        = (some (fitReq tok s e), [], .json (.obj [("steps", .num 0)]))) := by
  refine ⟨fun fs h1 => ?_, fun fs bfs brest h1 h2 => ?_,
    fun fs bfs dfs brest drest h1 h2 h3 => ?_,
    fun fs bfs dfs pfs brest drest prest h1 h2 h3 h4 => ?_,
    fun fs bfs dfs pfs vfs brest drest prest vrest h1 h2 h3 h4 h5 => ?_⟩
  · exact get_steps_ok tok htok s e st hst _ txt 0 (parseSteps_no_bucket fs h1)
  · exact get_steps_ok tok htok s e st hst _ txt 0 (parseSteps_no_dataset fs bfs brest h1 h2)
  · exact get_steps_ok tok htok s e st hst _ txt 0 (parseSteps_no_point fs bfs dfs brest drest h1 h2 h3)
  · exact get_steps_ok tok htok s e st hst _ txt 0
      (parseSteps_no_value fs bfs dfs pfs brest drest prest h1 h2 h3 h4)
  · exact get_steps_ok tok htok s e st hst _ txt 0
      (parseSteps_no_intVal fs bfs dfs pfs vfs brest drest prest vrest h1 h2 h3 h4 h5)

/-- Witness for C1: with a stored token and a 200 response whose body
is the empty object (no `bucket` key), `/get-steps` answers
`{steps: 0}`. -/
theorem c1_witness :
    truthy (.str "abc123") = true ∧ is_success 200 = true ∧
    get_steps (some (.str "abc123")) 0 0 ⟨200, .obj [], ""⟩
      = (some (fitReq (.str "abc123") 0 0), [], .json (.obj [("steps", .num 0)])) :=
  ⟨by decide, by decide,
    (c1_missing_level_defaults_to_zero (.str "abc123") (by decide) 0 0 200 (by decide) "").1
      [] rfl⟩

/-- C2: for every successful response whose body is the fully populated
nested structure `bucket[0].dataset[0].point[0].value[0]` with
`intVal = n`, `/get-steps` returns `{steps: n}`. -/
theorem c2_full_response_returns_intVal (tok : Json) (htok : truthy tok = true)
    (s e : Int) (st : Nat) (hst : is_success st = true) (txt : String) (n : Int) :
    get_steps (some tok) s e ⟨st, fullFitResponse n, txt⟩
      = (some (fitReq tok s e), [], .json (.obj [("steps", .num n)])) :=
  get_steps_ok tok htok s e st hst (fullFitResponse n) txt n (parseSteps_full n)

/-- Witness for C2: with an `intVal` of 4321 the handler answers
`{steps: 4321}`. -/
theorem c2_witness :
    truthy (.str "abc123") = true ∧ is_success 200 = true ∧
    get_steps (some (.str "abc123")) 0 0 ⟨200, fullFitResponse 4321, ""⟩
      = (some (fitReq (.str "abc123") 0 0), [], .json (.obj [("steps", .num 4321)])) :=
  ⟨by decide, by decide,
    c2_full_response_returns_intVal (.str "abc123") (by decide) 0 0 200 (by decide) "" 4321⟩

/-- C3: when the callback receives a (non-empty) `code` and the
Authorization Server answers 2xx with a body whose `access_token` field
is the non-empty string `t`, the handler stores `t` in the token field
and redirects to the frontend dashboard; afterwards every `/get-steps`
request POSTs to the Fitness Data API with header value `Bearer t`. -/
theorem c3_token_stored_and_used (st0 : Option Json) (cid csec code t : String)
    (hcode : code ≠ "") (ht : t ≠ "")
    (stc : Nat) (hst : is_success stc = true)
    (fs : List (String × Json)) (hfs : fs.lookup "access_token" = some (.str t))
    (txt : String) :
    auth_google_callback st0 cid csec (some code) ⟨stc, .obj fs, txt⟩
      = (some (.str t),
         some ⟨token_url, code, cid, csec, REDIRECT_URI, "authorization_code"⟩, [],
         .redirect (FRONTEND_URL ++ "/dashboard"))
  ∧ ∀ (s e : Int) (resp : HttpResponse),
      (get_steps (some (.str t)) s e resp).1
        = some ⟨api_url, "Bearer " ++ t, request_body s e⟩ := by
  constructor
  · simp [auth_google_callback, strTruthy, hcode, hst, pyGet, hfs]
  · intro s e resp
    have htr : truthyOpt (some (.str t)) = true := by simp [truthyOpt, truthy, ht]
    by_cases hs : is_success resp.status
    · simp only [get_steps, htr, if_true, hs]
      cases hp : parseSteps resp.body <;> simp [fitReq, pyStrOf]
    · simp [get_steps, htr, hs, fitReq, pyStrOf]

/-- Witness for C3: the mocked token `abc123` is stored and the next
`/get-steps` request carries `Authorization: Bearer abc123`. -/
theorem c3_witness :
    auth_google_callback none "id" "secret" (some "c0de")
        ⟨200, .obj [("access_token", .str "abc123")], ""⟩
      = (some (.str "abc123"),
         some ⟨token_url, "c0de", "id", "secret", REDIRECT_URI, "authorization_code"⟩, [],
         .redirect (FRONTEND_URL ++ "/dashboard"))
  ∧ (get_steps (some (.str "abc123")) 0 0 ⟨200, .null, ""⟩).1
      = some ⟨api_url, "Bearer " ++ "abc123", request_body 0 0⟩ :=
  ⟨(c3_token_stored_and_used none "id" "secret" "c0de" "abc123" (by decide) (by decide)
      200 (by decide) [("access_token", .str "abc123")] rfl "").1,
   (c3_token_stored_and_used none "id" "secret" "c0de" "abc123" (by decide) (by decide)
      200 (by decide) [("access_token", .str "abc123")] rfl "").2 0 0 ⟨200, .null, ""⟩⟩

/-- C4: with no stored token, `/get-steps` returns the
`{error: "Not authenticated"}` payload paired with status 401 and
issues no request to the Fitness Data API. -/
theorem c4_unauthenticated_error (s e : Int) (resp : HttpResponse) :
    get_steps none s e resp
      = (none, [], .jsonStatus (.obj [("error", .str "Not authenticated")]) 401) := rfl

/-- C5: a callback with no `code` query parameter redirects to
`<frontend>/login-failed`, leaves the token unchanged, and issues no
token-exchange request. -/
theorem c5_missing_code_redirects (st0 : Option Json) (cid csec : String)
    (resp : HttpResponse) :
    auth_google_callback st0 cid csec none resp
      = (st0, none, [], .redirect (FRONTEND_URL ++ "/login-failed")) := rfl

/-- C6: when the token-exchange POST yields any non-2xx status, the
callback logs the upstream response body and redirects to the
frontend failure route (token unchanged). -/
theorem c6_token_exchange_failure (st0 : Option Json) (cid csec code : String)
    (hcode : code ≠ "") (resp : HttpResponse)
    (hfail : is_success resp.status = false) :
    auth_google_callback st0 cid csec (some code) resp
      = (st0, some ⟨token_url, code, cid, csec, REDIRECT_URI, "authorization_code"⟩,
         ["Error exchanging code for token: " ++ resp.text],
         .redirect (FRONTEND_URL ++ "/login-failed")) := by
  simp [auth_google_callback, strTruthy, hcode, hfail]

/-- Witness for C6: a 400 from the Authorization Server is logged and
answered with a redirect to the failure page. -/
theorem c6_witness :
    "c0de" ≠ "" ∧ is_success 400 = false ∧
    auth_google_callback none "id" "secret" (some "c0de") ⟨400, .null, "bad grant"⟩
      = (none, some ⟨token_url, "c0de", "id", "secret", REDIRECT_URI, "authorization_code"⟩,
         ["Error exchanging code for token: " ++ "bad grant"],
         .redirect (FRONTEND_URL ++ "/login-failed")) :=
  ⟨by decide, by decide,
    c6_token_exchange_failure none "id" "secret" "c0de" (by decide)
      ⟨400, .null, "bad grant"⟩ (by decide)⟩

/-- C7: when the Fitness Data API answers any non-2xx status, the
handler logs the upstream response body and returns the error payload
paired with status 500. -/
theorem c7_fit_api_failure (tok : Json) (htok : truthy tok = true) (s e : Int)
    (resp : HttpResponse) (hfail : is_success resp.status = false) :
    get_steps (some tok) s e resp
      = (some (fitReq tok s e), ["Error fetching steps: " ++ resp.text],
         .jsonStatus (.obj [("error", .str "Failed to fetch steps from Google Fit.")]) 500) := by
  simp [get_steps, truthyOpt, htok, hfail]

/-- Witness for C7: a 500 from the Fitness Data API yields the error
payload and a log line with the upstream body. -/
theorem c7_witness :
    truthy (.str "abc123") = true ∧ is_success 500 = false ∧
    get_steps (some (.str "abc123")) 0 0 ⟨500, .null, "server error"⟩
      = (some (fitReq (.str "abc123") 0 0), ["Error fetching steps: " ++ "server error"],
         .jsonStatus (.obj [("error", .str "Failed to fetch steps from Google Fit.")]) 500) :=
  ⟨by decide, by decide,
    c7_fit_api_failure (.str "abc123") (by decide) 0 0 ⟨500, .null, "server error"⟩ (by decide)⟩

/-- C8: the `/login` redirect URL contains the configured client
identifier, the fixed redirect URI and the fixed scope; each occurrence
is its correct URL-encoding (for these values, which consist only of
characters allowed verbatim in a query component, the correct encoding
is the value itself). -/
theorem c8_login_url_components (cid : String)
    (hcid : ∀ c ∈ cid.data, queryAllowedChar c = true) :
    login_google cid = .redirect (auth_url cid)
  ∧ strContains (auth_url cid) ("client_id=" ++ urlEncodeQueryValue cid)
  ∧ strContains (auth_url cid) ("redirect_uri=" ++ urlEncodeQueryValue REDIRECT_URI)
  ∧ strContains (auth_url cid) ("scope=" ++ urlEncodeQueryValue SCOPE) := by
  rw [urlEncode_eq_self hcid,
    show urlEncodeQueryValue REDIRECT_URI = REDIRECT_URI from by decide,
    show urlEncodeQueryValue SCOPE = SCOPE from by decide]
  refine ⟨rfl, ?_, ?_, ?_⟩
  · refine ⟨"https://accounts.google.com/o/oauth2/v2/auth?" ++ "scope=" ++ SCOPE ++ "&" ++
      "include_granted_scopes=true&" ++ "response_type=code&" ++ "redirect_uri=" ++
      REDIRECT_URI ++ "&", "", ?_⟩
    simp only [auth_url, str_append_assoc, str_append_right_empty]
  · refine ⟨"https://accounts.google.com/o/oauth2/v2/auth?" ++ "scope=" ++ SCOPE ++ "&" ++
      "include_granted_scopes=true&" ++ "response_type=code&",
      "&" ++ "client_id=" ++ cid, ?_⟩
    simp only [auth_url, str_append_assoc]
  · refine ⟨"https://accounts.google.com/o/oauth2/v2/auth?",
      "&" ++ "include_granted_scopes=true&" ++ "response_type=code&" ++ "redirect_uri=" ++
        REDIRECT_URI ++ "&" ++ "client_id=" ++ cid, ?_⟩
    simp only [auth_url, str_append_assoc]

/-- Witness for C8: a concrete query-safe client identifier. -/
theorem c8_witness :
    (∀ c ∈ "1234.apps.googleusercontent.com".data, queryAllowedChar c = true)
  ∧ (login_google "1234.apps.googleusercontent.com"
        = .redirect (auth_url "1234.apps.googleusercontent.com")
      ∧ strContains (auth_url "1234.apps.googleusercontent.com")
          ("client_id=" ++ urlEncodeQueryValue "1234.apps.googleusercontent.com")
      ∧ strContains (auth_url "1234.apps.googleusercontent.com")
          ("redirect_uri=" ++ urlEncodeQueryValue REDIRECT_URI)
      ∧ strContains (auth_url "1234.apps.googleusercontent.com")
          ("scope=" ++ urlEncodeQueryValue SCOPE)) :=
  ⟨by decide, c8_login_url_components "1234.apps.googleusercontent.com" (by decide)⟩

/-- C9: a 2xx token-exchange response whose body lacks `access_token`
sets the stored token to `None` while still redirecting to the
dashboard; afterwards `/get-steps` answers the unauthenticated error. -/
theorem c9_missing_token_field (st0 : Option Json) (cid csec code : String)
    (hcode : code ≠ "") (stc : Nat) (hst : is_success stc = true)
    (fs : List (String × Json)) (hfs : fs.lookup "access_token" = none) (txt : String) :
    auth_google_callback st0 cid csec (some code) ⟨stc, .obj fs, txt⟩
      = (none, some ⟨token_url, code, cid, csec, REDIRECT_URI, "authorization_code"⟩, [],
         .redirect (FRONTEND_URL ++ "/dashboard"))
  ∧ ∀ (s e : Int) (resp : HttpResponse),
      get_steps none s e resp
        = (none, [], .jsonStatus (.obj [("error", .str "Not authenticated")]) 401) :=
  ⟨by simp [auth_google_callback, strTruthy, hcode, hst, pyGet, hfs],
   fun s e resp => rfl⟩

/-- Witness for C9: a 200 with body `{}` clears the token and the next
`/get-steps` is unauthenticated. -/
theorem c9_witness :
    auth_google_callback (some (.str "old")) "id" "secret" (some "c0de") ⟨200, .obj [], ""⟩
      = (none, some ⟨token_url, "c0de", "id", "secret", REDIRECT_URI, "authorization_code"⟩,
         [], .redirect (FRONTEND_URL ++ "/dashboard"))
  ∧ get_steps none 0 0 ⟨200, .null, ""⟩
      = (none, [], .jsonStatus (.obj [("error", .str "Not authenticated")]) 401) :=
  ⟨(c9_missing_token_field (some (.str "old")) "id" "secret" "c0de" (by decide)
      200 (by decide) [] rfl "").1,
   (c9_missing_token_field (some (.str "old")) "id" "secret" "c0de" (by decide)
      200 (by decide) [] rfl "").2 0 0 ⟨200, .null, ""⟩⟩

/-- C10: a failed (non-2xx) token exchange leaves the stored token
unchanged: a token from an earlier successful login is neither cleared
nor overwritten. -/
theorem c10_failed_exchange_preserves_token (prev : Json) (cid csec code : String)
    (resp : HttpResponse) (hfail : is_success resp.status = false) :
    (auth_google_callback (some prev) cid csec (some code) resp).1 = some prev := by
  by_cases hc : code = ""
  · simp [auth_google_callback, strTruthy, hc]
  · simp [auth_google_callback, strTruthy, hc, hfail]

/-- Witness for C10: a 400 exchange keeps the previously stored token. -/
theorem c10_witness :
    is_success 400 = false ∧
    (auth_google_callback (some (.str "old")) "id" "secret" (some "c0de")
        ⟨400, .null, "bad"⟩).1 = some (.str "old") :=
  ⟨by decide,
    c10_failed_exchange_preserves_token (.str "old") "id" "secret" "c0de"
      ⟨400, .null, "bad"⟩ (by decide)⟩
